import Mathlib

/-!
Verification of `mongo_service.py`: a FastAPI REST façade over a single
MongoDB collection.  Documents are modelled as association lists of
string keys to BSON-like values, a collection as a list of documents,
and the module-level connection/collection handles as `Option`s.  Each
endpoint handler is embedded as a pure function; the Python
`try/except Exception` wrapper (which also catches the `HTTPException`
raised inside the `try` block and re-raises it as a 500) is modelled
explicitly.
-/

namespace MongoService

/-- A BSON-like value stored in a document field. -/
inductive BValue where
  | str : String → BValue
  | int : Int → BValue
  | oid : String → BValue
  | bool : Bool → BValue
deriving DecidableEq, Repr

/-- Python `str()` applied to a stored value (`str(existing_record["_id"])`). -/
def bvalToString : BValue → String
  | .str s => s
  | .int n => toString n
  | .oid s => s
  | .bool b => if b then "True" else "False"

/-- A MongoDB document: an association list of field names to values. -/
abbrev Doc := List (String × BValue)

/-- Field lookup, Python `record.get(k)` / `record[k]`. -/
def dget (d : Doc) (k : String) : Option BValue :=
  (List.find? (fun p => p.1 = k) d).map (fun p => p.2)

/-- MongoDB `$set` on one document: replace the field in place if present,
append it at the end otherwise. -/
def setField : Doc → String → BValue → Doc
  | [], k, v => [(k, v)]
  | p :: ds, k, v => if p.1 = k then (k, v) :: ds else p :: setField ds k v

/-- Embeds `collection.find_one()` with an empty filter: the first document
in natural order. -/
def find_one (coll : List Doc) : Option Doc :=
  coll.head?

/-- Embeds a `find_one` call filtering on `_id`: the first document whose
`_id` is `i`. -/
def find_one_by_id (coll : List Doc) (i : BValue) : Option Doc :=
  List.find? (fun d => dget d "_id" = some i) coll

/-- The result object of `collection.update_one`. -/
structure UpdateResult where
  matched_count : Nat
  modified_count : Nat
deriving DecidableEq, Repr

/-- Embeds `collection.update_one` with an `_id` filter and a single-field
`$set`: update the first document whose `_id` is `i`; the document counts
as modified only when the stored value actually changes. -/
def update_one : List Doc → BValue → String → BValue → List Doc × UpdateResult
  | [], _, _, _ => ([], ⟨0, 0⟩)
  | d :: ds, i, k, v =>
    if dget d "_id" = some i then
      if dget d k = some v then (d :: ds, ⟨1, 0⟩)
      else (setField d k v :: ds, ⟨1, 1⟩)
    else
      let r := update_one ds i k v
      (d :: r.1, r.2)

/-- Embeds `collection.count_documents` with an empty filter. -/
def count_documents (coll : List Doc) : Nat :=
  coll.length

/-- The Pydantic `UrlResponse` model: `{success, data, message}`. -/
structure UrlResponse where
  success : Bool
  data : Option Doc
  message : String
deriving DecidableEq, Repr

/-- What an endpoint hands back to FastAPI: a normal `UrlResponse` (HTTP 200)
or a raised `HTTPException` with a status code and detail string. -/
inductive ApiResult where
  | ok : UrlResponse → ApiResult
  | httpError : Nat → String → ApiResult
deriving DecidableEq, Repr

/-- HTTP status code of a result: a returned response model is served
with status 200. -/
def ApiResult.status : ApiResult → Nat
  | .ok _ => 200
  | .httpError s _ => s

/-- An exception raised inside the `try` block of a handler. -/
inductive Exn where
  | httpException : Nat → String → Exn
  | keyError : String → Exn
deriving DecidableEq, Repr

/-- Python `str(e)` for the exceptions the handlers can raise: a starlette
`HTTPException` prints as the status code, a colon and the detail, and a
`KeyError` prints the key between single quotes. -/
def Exn.toStr : Exn → String
  | .httpException status detail => toString status ++ ": " ++ detail
  | .keyError k => "'" ++ k ++ "'"

def DATABASE_NAME : String := "ngrok"

def COLLECTION_NAME : String := "url"

/-- Handler for `GET /api/health`.  The argument models the module-level `mongo_client`:
`none` when `connect_to_mongodb` has not set it, `some none` when the ping
succeeds, `some (some e)` when the ping raises an exception printing as `e`.
The `HTTPException(503)` raised when the client is `None` is caught by the
catch-all `except Exception` of the handler itself and re-raised as a 503
with a wrapped message. -/
def health_check : Option (Option String) → ApiResult
  | none =>
      .httpError 503 ("Error de conexión: " ++ Exn.toStr (.httpException 503 "MongoDB no conectado"))
  | some none =>
      .ok ⟨true,
        some [("status", .str "healthy"), ("database", .str DATABASE_NAME)],
        "Conexión a MongoDB OK"⟩
  | some (some e) =>
      .httpError 503 ("Error de conexión: " ++ e)

/-- Handler for `GET /api/url`.  The argument models the module-level `collection`
handle.  The `HTTPException(503)` raised when the handle is `None` is
caught by the catch-all `except Exception` of the handler and re-raised
as a 500 with an internal-error message. -/
def get_url_record : Option (List Doc) → ApiResult
  | none =>
      .httpError 500 ("Error interno: " ++ Exn.toStr (.httpException 503 "MongoDB no conectado"))
  | some coll =>
    match find_one coll with
    | none =>
        .ok ⟨false, none, "No se encontró ningún registro en la colección"⟩
    | some record =>
        .ok ⟨true,
          some [("uri", (dget record "uri").getD (.str "No encontrado"))],
          "Valor de URI obtenido exitosamente"⟩

/-- Everything observable about one `PUT /api/url` call: the HTTP result,
the collection contents afterwards, and — when the handler performed the
post-update `find_one` re-read by id — the record that re-read returned. -/
structure UpdateOutcome where
  result : ApiResult
  newColl : Option (List Doc)
  reread : Option (Option Doc)
deriving DecidableEq, Repr

/-- Handler for `PUT /api/url` with the given body uri.  Mirrors the code: 503 raise
(swallowed into a 500) when not connected; `success=false` when the
collection has no record; `update_one` on the `_id` of the first record
(a missing `_id` raises `KeyError`, surfacing as a 500); on
`modified_count > 0` it re-reads the record and answers with the new uri,
the previous uri (or "N/A") and the stringified id; on `modified_count = 0`
it answers `success=false`. -/
def update_url_record (collection : Option (List Doc)) (uri : String) : UpdateOutcome :=
  match collection with
  | none =>
      ⟨.httpError 500 ("Error interno: " ++ Exn.toStr (.httpException 503 "MongoDB no conectado")),
        none, none⟩
  | some coll =>
    match find_one coll with
    | none =>
        ⟨.ok ⟨false, none, "No se encontró ningún registro para actualizar"⟩, some coll, none⟩
    | some existing_record =>
      match dget existing_record "_id" with
      | none =>
          ⟨.httpError 500 ("Error interno: " ++ Exn.toStr (.keyError "_id")), some coll, none⟩
      | some rid =>
        let u := update_one coll rid "uri" (.str uri)
        if u.2.modified_count > 0 then
          ⟨.ok ⟨true,
              some [("uri", .str uri),
                    ("previous_uri", (dget existing_record "uri").getD (.str "N/A")),
                    ("_id", .str (bvalToString rid))],
              "URI actualizada exitosamente"⟩,
            some u.1, some (find_one_by_id u.1 rid)⟩
        else
          ⟨.ok ⟨false, none, "No se pudo actualizar el registro"⟩, some u.1, none⟩

/-- Handler for `GET /api/url/count`. -/
def get_url_count : Option (List Doc) → ApiResult
  | none =>
      .httpError 500 ("Error interno: " ++ Exn.toStr (.httpException 503 "MongoDB no conectado"))
  | some coll =>
      .ok ⟨true,
        some [("count", .int (count_documents coll))],
        "La colección tiene " ++ toString (count_documents coll) ++ " registro(s)"⟩

/-- A JSON value, for the serialized form of a response body. -/
inductive JValue where
  | jbool : Bool → JValue
  | jstr : String → JValue
  | jint : Int → JValue
  | jnull : JValue
  | jobj : List (String × JValue) → JValue

/-- JSON encoding of a stored value. -/
def BValue.toJson : BValue → JValue
  | .str s => .jstr s
  | .int n => .jint n
  | .oid s => .jstr s
  | .bool b => .jbool b

/-- JSON body FastAPI serializes for a returned `UrlResponse`: exactly the
three fields of the model. -/
def UrlResponse.toJson (r : UrlResponse) : List (String × JValue) :=
  [("success", .jbool r.success),
   ("data", match r.data with
            | none => .jnull
            | some d => .jobj (d.map (fun p => (p.1, BValue.toJson p.2)))),
   ("message", .jstr r.message)]

/-- Top-level field lookup in a serialized JSON object. -/
def jget (o : List (String × JValue)) (k : String) : Option JValue :=
  (List.find? (fun p => p.1 = k) o).map (fun p => p.2)

/-! ### Helper lemmas -/

theorem dget_cons (p : String × BValue) (ds : Doc) (k : String) :
    dget (p :: ds) k = if p.1 = k then some p.2 else dget ds k := by
  by_cases h : p.1 = k <;> simp [dget, List.find?, h]

theorem dget_setField_self (d : Doc) (k : String) (v : BValue) :
    dget (setField d k v) k = some v := by
  induction d with
  | nil => simp [setField, dget_cons, dget]
  | cons p ds ih =>
    by_cases h : p.1 = k
    · simp [setField, h, dget_cons]
    · simp [setField, h, dget_cons, ih]

theorem dget_setField_ne (d : Doc) (k k' : String) (v : BValue) (h : k' ≠ k) :
    dget (setField d k v) k' = dget d k' := by
  have hk : ¬ (k = k') := fun hh => h hh.symm
  induction d with
  | nil => simp [setField, dget_cons, dget, hk]
  | cons p ds ih =>
    by_cases hp : p.1 = k
    · have hp' : ¬ (p.1 = k') := by rw [hp]; exact hk
      simp [setField, hp, dget_cons, hk, hp']
    · simp [setField, hp, dget_cons, ih]

theorem update_one_length (coll : List Doc) (i : BValue) (k : String) (v : BValue) :
    (update_one coll i k v).1.length = coll.length := by
  induction coll with
  | nil => rfl
  | cons d ds ih =>
    by_cases hm : dget d "_id" = some i
    · by_cases hv : dget d k = some v <;> simp [update_one, hm, hv]
    · simp [update_one, hm, ih]

/-- The success branch of the update handler, in one equation: with the
first record carrying id `rid` and a uri different from `V`, the handler
rewrites the uri of that record, re-reads it and reports the new and
previous uri and the stringified id. -/
theorem update_success_eq (r0 : Doc) (rest : List Doc) (rid : BValue) (V : String)
    (hid : dget r0 "_id" = some rid) (hne : ¬ dget r0 "uri" = some (.str V)) :
    update_url_record (some (r0 :: rest)) V =
      ⟨.ok ⟨true,
          some [("uri", .str V),
                ("previous_uri", (dget r0 "uri").getD (.str "N/A")),
                ("_id", .str (bvalToString rid))],
          "URI actualizada exitosamente"⟩,
        some (setField r0 "uri" (.str V) :: rest),
        some (some (setField r0 "uri" (.str V)))⟩ := by
  have hsid : dget (setField r0 "uri" (.str V)) "_id" = some rid := by
    rw [dget_setField_ne _ _ _ _ (by decide)]; exact hid
  simp [update_url_record, find_one, hid, update_one, hne, find_one_by_id, List.find?, hsid]

/-! ### Claim theorems -/

/-- C1: with no connection established (the module-level handles are `None`),
`GET /api/health` responds 503, but `GET /api/url` and `PUT /api/url` respond
500, not 503: the `HTTPException(503)` they raise is swallowed by their own
catch-all `except Exception` and re-raised as a 500 whose detail still shows
the buried 503. -/
theorem notConnected_behavior :
    health_check none = .httpError 503 "Error de conexión: 503: MongoDB no conectado"
  ∧ get_url_record none = .httpError 500 "Error interno: 503: MongoDB no conectado"
  ∧ (update_url_record none "B").result = .httpError 500 "Error interno: 503: MongoDB no conectado"
  ∧ (health_check none).status = 503
  ∧ (get_url_record none).status = 500
  ∧ ((update_url_record none "B").result).status = 500 :=
  ⟨rfl, rfl, rfl, rfl, rfl, rfl⟩

/-- C3: a `PUT /api/url` carrying exactly the uri value the first record
already holds makes `update_one` report zero modified documents, and the
handler answers with `success = false`, `data = none` and a failure message,
leaving the collection unchanged. -/
theorem putSameValue_reportsFailure (r0 : Doc) (rest : List Doc) (rid : BValue) (V : String)
    (hid : dget r0 "_id" = some rid) (huri : dget r0 "uri" = some (.str V)) :
    (update_one (r0 :: rest) rid "uri" (.str V)).2.modified_count = 0
  ∧ update_url_record (some (r0 :: rest)) V =
      ⟨.ok ⟨false, none, "No se pudo actualizar el registro"⟩, some (r0 :: rest), none⟩ := by
  constructor
  · simp [update_one, hid, huri]
  · simp [update_url_record, find_one, hid, update_one, huri]

theorem putSameValue_reportsFailure_witness :
    (update_one [[("_id", BValue.oid "X"), ("uri", BValue.str "A")]]
        (BValue.oid "X") "uri" (BValue.str "A")).2.modified_count = 0
  ∧ update_url_record (some [[("_id", BValue.oid "X"), ("uri", BValue.str "A")]]) "A" =
      ⟨.ok ⟨false, none, "No se pudo actualizar el registro"⟩,
        some [[("_id", BValue.oid "X"), ("uri", BValue.str "A")]], none⟩ :=
  putSameValue_reportsFailure _ _ (BValue.oid "X") "A" rfl rfl

/-- C4: a `PUT /api/url` with a new uri value against an existing first
record modifies that record, and the handler answers `success = true` with
the new uri, the previous uri (defaulting to the string N/A when the record
had no uri field) and the stringified record id; the stored record now holds
the new uri. -/
theorem putNewValue_success (r0 : Doc) (rest : List Doc) (rid : BValue) (V : String)
    (hid : dget r0 "_id" = some rid) (hne : ¬ dget r0 "uri" = some (.str V)) :
    update_url_record (some (r0 :: rest)) V =
      ⟨.ok ⟨true,
          some [("uri", .str V),
                ("previous_uri", (dget r0 "uri").getD (.str "N/A")),
                ("_id", .str (bvalToString rid))],
          "URI actualizada exitosamente"⟩,
        some (setField r0 "uri" (.str V) :: rest),
        some (some (setField r0 "uri" (.str V)))⟩
    ∧ dget (setField r0 "uri" (.str V)) "uri" = some (.str V) :=
  ⟨update_success_eq r0 rest rid V hid hne, dget_setField_self ..⟩

theorem putNewValue_success_witness :
    update_url_record
        (some [[("_id", BValue.oid "X"), ("uri", BValue.str "A"), ("n", BValue.int 7)]]) "B" =
      ⟨.ok ⟨true,
          some [("uri", BValue.str "B"), ("previous_uri", BValue.str "A"),
                ("_id", BValue.str "X")],
          "URI actualizada exitosamente"⟩,
        some [[("_id", BValue.oid "X"), ("uri", BValue.str "B"), ("n", BValue.int 7)]],
        some (some [("_id", BValue.oid "X"), ("uri", BValue.str "B"), ("n", BValue.int 7)])⟩
    ∧ dget [("_id", BValue.oid "X"), ("uri", BValue.str "B"), ("n", BValue.int 7)] "uri" =
        some (BValue.str "B") :=
  putNewValue_success _ _ (BValue.oid "X") "B" rfl (by decide)

/-- C5: a `GET /api/url` against a collection whose first record exists
answers `success = true` with the uri field of that record in the data map,
and when the record has no uri field the answer carries the literal
placeholder string No encontrado instead of failing. -/
theorem getRecord_success (r0 : Doc) (rest : List Doc) :
    get_url_record (some (r0 :: rest)) =
      .ok ⟨true, some [("uri", (dget r0 "uri").getD (.str "No encontrado"))],
        "Valor de URI obtenido exitosamente"⟩
  ∧ (dget r0 "uri" = none →
      get_url_record (some (r0 :: rest)) =
        .ok ⟨true, some [("uri", .str "No encontrado")],
          "Valor de URI obtenido exitosamente"⟩) := by
  constructor
  · rfl
  · intro h; simp [get_url_record, find_one, h]

theorem getRecord_success_witness :
    dget [("_id", BValue.oid "X")] "uri" = none
  ∧ get_url_record (some [[("_id", BValue.oid "X")]]) =
      .ok ⟨true, some [("uri", BValue.str "No encontrado")],
        "Valor de URI obtenido exitosamente"⟩ :=
  ⟨rfl, (getRecord_success [("_id", BValue.oid "X")] []).2 rfl⟩

/-- C6: a `GET /api/url` against a connected but empty collection is served
with HTTP status 200 and the envelope `success = false`, `data = none` and a
no-record-found message. -/
theorem getEmpty_status200_failEnvelope :
    get_url_record (some []) =
      .ok ⟨false, none, "No se encontró ningún registro en la colección"⟩
  ∧ (get_url_record (some [])).status = 200 :=
  ⟨rfl, rfl⟩

/-- C2: round-trip — whenever a `PUT /api/url` with body uri `V` succeeds
(the handler answers an envelope with `success = true`), a subsequent
`GET /api/url` on the resulting collection answers `success = true` with
the data map holding exactly uri `V`, for every string `V`. -/
theorem putThenGet_roundtrip (coll : List Doc) (V : String) (r : UrlResponse)
    (hok : (update_url_record (some coll) V).result = .ok r)
    (hs : r.success = true) :
    get_url_record (update_url_record (some coll) V).newColl =
      .ok ⟨true, some [("uri", .str V)], "Valor de URI obtenido exitosamente"⟩ := by
  match coll with
  | [] =>
    simp [update_url_record, find_one] at hok
    rw [← hok] at hs
    simp at hs
  | r0 :: rest =>
    cases hid : dget r0 "_id" with
    | none => simp [update_url_record, find_one, hid] at hok
    | some rid =>
      by_cases hv : dget r0 "uri" = some (.str V)
      · simp [update_url_record, find_one, hid, update_one, hv] at hok
        rw [← hok] at hs
        simp at hs
      · simp [update_url_record, find_one, hid, update_one, hv,
          get_url_record, dget_setField_self]

theorem putThenGet_roundtrip_witness :
    get_url_record
        (update_url_record (some [[("_id", BValue.oid "X"), ("uri", BValue.str "A")]]) "").newColl =
      .ok ⟨true, some [("uri", BValue.str "")], "Valor de URI obtenido exitosamente"⟩ :=
  putThenGet_roundtrip _ ""
    ⟨true,
      some [("uri", BValue.str ""), ("previous_uri", BValue.str "A"), ("_id", BValue.str "X")],
      "URI actualizada exitosamente"⟩
    rfl rfl

/-- C7 counterexample: the serialized body of a `GET /api/url/count`
response has no bare top-level count field — looking up the key count at
the top level of the JSON object yields nothing, while the count sits only
inside the data map. -/
theorem countResponse_noBareCountField :
    get_url_count (some [[("_id", BValue.oid "X")]]) =
      .ok ⟨true, some [("count", BValue.int 1)], "La colección tiene 1 registro(s)"⟩
  ∧ jget (UrlResponse.toJson
        ⟨true, some [("count", BValue.int 1)], "La colección tiene 1 registro(s)"⟩) "count" =
      none :=
  ⟨rfl, rfl⟩

/-- C7 (amended): a `GET /api/url/count` against a connected collection of
N documents answers `success = true` with `data.count = N` and a message
embedding N; the count is not additionally returned as a bare top-level
field — the serialized response body holds only the keys success, data and
message. -/
theorem getUrlCount_envelope (coll : List Doc) :
    get_url_count (some coll) =
      .ok ⟨true, some [("count", .int (count_documents coll))],
        "La colección tiene " ++ toString (count_documents coll) ++ " registro(s)"⟩
  ∧ (∀ r, get_url_count (some coll) = .ok r →
      jget (UrlResponse.toJson r) "count" = none) := by
  refine ⟨rfl, ?_⟩
  intro r _
  rfl

theorem getUrlCount_envelope_witness :
    jget (UrlResponse.toJson
        ⟨true, some [("count", BValue.int 1)], "La colección tiene 1 registro(s)"⟩) "count" =
      none :=
  (getUrlCount_envelope [[("_id", BValue.oid "X")]]).2 _ rfl

/-- C8: frame property of the update — `PUT /api/url` never creates or
removes a document (the collection keeps its length in every outcome), a
`PUT` against an empty collection answers `success = false` with the
collection still empty, and a successful `PUT` rewrites only the uri field
of the first document: every other field of it keeps its value and every
other document is untouched. -/
theorem update_frame (coll : List Doc) (V : String) :
    ((update_url_record (some coll) V).newColl).map List.length = some coll.length
  ∧ update_url_record (some []) V =
      ⟨.ok ⟨false, none, "No se encontró ningún registro para actualizar"⟩, some [], none⟩
  ∧ (∀ r0 rest rid, coll = r0 :: rest → dget r0 "_id" = some rid →
      ¬ dget r0 "uri" = some (.str V) →
      (update_url_record (some coll) V).newColl = some (setField r0 "uri" (.str V) :: rest)
      ∧ ∀ k, k ≠ "uri" → dget (setField r0 "uri" (.str V)) k = dget r0 k) := by
  refine ⟨?_, rfl, ?_⟩
  · match coll with
    | [] => rfl
    | r0 :: rest =>
      cases hid : dget r0 "_id" with
      | none => simp [update_url_record, find_one, hid]
      | some rid =>
        by_cases hv : dget r0 "uri" = some (.str V) <;>
          simp [update_url_record, find_one, hid, update_one, hv, update_one_length]
  · intro r0 rest rid hcoll hid hne
    subst hcoll
    refine ⟨?_, fun k hk => dget_setField_ne _ _ _ _ hk⟩
    simp [update_url_record, find_one, hid, update_one, hne]

theorem update_frame_witness :
    (update_url_record
        (some [[("_id", BValue.oid "X"), ("uri", BValue.str "A"), ("n", BValue.int 7)]])
        "B").newColl =
      some [[("_id", BValue.oid "X"), ("uri", BValue.str "B"), ("n", BValue.int 7)]]
  ∧ dget [("_id", BValue.oid "X"), ("uri", BValue.str "B"), ("n", BValue.int 7)] "n" =
      dget [("_id", BValue.oid "X"), ("uri", BValue.str "A"), ("n", BValue.int 7)] "n"
  ∧ update_url_record (some ([] : List Doc)) "B" =
      ⟨.ok ⟨false, none, "No se encontró ningún registro para actualizar"⟩, some [], none⟩ := by
  have h := update_frame
    [[("_id", BValue.oid "X"), ("uri", BValue.str "A"), ("n", BValue.int 7)]] "B"
  have h3 := h.2.2 _ _ (BValue.oid "X") rfl rfl (by decide)
  exact ⟨h3.1, h3.2 "n" (by decide), h.2.1⟩

/-- C9: after a successful update the handler re-reads the record from the
store by its id; that re-read returns the updated record, whose stored uri
equals the uri the response reports. -/
theorem update_reread_consistent (r0 : Doc) (rest : List Doc) (rid : BValue) (V : String)
    (hid : dget r0 "_id" = some rid) (hne : ¬ dget r0 "uri" = some (.str V)) :
    (update_url_record (some (r0 :: rest)) V).reread =
      some (some (setField r0 "uri" (.str V)))
  ∧ dget (setField r0 "uri" (.str V)) "uri" = some (.str V)
  ∧ (update_url_record (some (r0 :: rest)) V).result =
      .ok ⟨true,
        some [("uri", .str V),
              ("previous_uri", (dget r0 "uri").getD (.str "N/A")),
              ("_id", .str (bvalToString rid))],
        "URI actualizada exitosamente"⟩ := by
  have h := update_success_eq r0 rest rid V hid hne
  exact ⟨by rw [h], dget_setField_self .., by rw [h]⟩

theorem update_reread_consistent_witness :
    (update_url_record (some [[("_id", BValue.oid "X"), ("uri", BValue.str "A")]]) "B").reread =
      some (some [("_id", BValue.oid "X"), ("uri", BValue.str "B")])
  ∧ dget [("_id", BValue.oid "X"), ("uri", BValue.str "B")] "uri" = some (BValue.str "B")
  ∧ (update_url_record (some [[("_id", BValue.oid "X"), ("uri", BValue.str "A")]]) "B").result =
      .ok ⟨true,
        some [("uri", BValue.str "B"), ("previous_uri", BValue.str "A"),
              ("_id", BValue.str "X")],
        "URI actualizada exitosamente"⟩ :=
  update_reread_consistent _ _ (BValue.oid "X") "B" rfl (by decide)

/-- C10: invariant — every envelope any handler returns with
`success = false` carries `data = none`; a failure envelope never holds a
data payload, whatever the connection state, collection contents or request
body. -/
theorem failEnvelope_data_none (c : Option (List Doc)) (V : String)
    (pc : Option (Option String)) :
    (∀ r, get_url_record c = .ok r → r.success = false → r.data = none)
  ∧ (∀ r, (update_url_record c V).result = .ok r → r.success = false → r.data = none)
  ∧ (∀ r, get_url_count c = .ok r → r.success = false → r.data = none)
  ∧ (∀ r, health_check pc = .ok r → r.success = false → r.data = none) := by
  refine ⟨?_, ?_, ?_, ?_⟩
  · intro r h hs
    obtain ⟨rs, rd, rm⟩ := r
    match c with
    | none => simp [get_url_record] at h
    | some [] =>
      simp [get_url_record, find_one] at h
      simp [h.2.1]
    | some (r0 :: rest) =>
      simp [get_url_record, find_one] at h
      simp_all
  · intro r h hs
    obtain ⟨rs, rd, rm⟩ := r
    match c with
    | none => simp [update_url_record] at h
    | some [] =>
      simp [update_url_record, find_one] at h
      simp [h.2.1]
    | some (r0 :: rest) =>
      cases hid : dget r0 "_id" with
      | none => simp [update_url_record, find_one, hid] at h
      | some rid =>
        by_cases hm : (update_one (r0 :: rest) rid "uri" (.str V)).2.modified_count > 0
        · simp [update_url_record, find_one, hid, hm] at h
          simp_all
        · simp [update_url_record, find_one, hid, hm] at h
          simp [h.2.1]
  · intro r h hs
    obtain ⟨rs, rd, rm⟩ := r
    match c with
    | none => simp [get_url_count] at h
    | some coll =>
      simp [get_url_count] at h
      simp_all
  · intro r h hs
    obtain ⟨rs, rd, rm⟩ := r
    match pc with
    | none => simp [health_check] at h
    | some none =>
      simp [health_check] at h
      simp_all
    | some (some e) => simp [health_check] at h

theorem failEnvelope_data_none_witness :
    get_url_record (some []) =
      .ok ⟨false, none, "No se encontró ningún registro en la colección"⟩
  ∧ (UrlResponse.mk false none "No se encontró ningún registro en la colección").data = none :=
  ⟨rfl,
    (failEnvelope_data_none (some []) "B" none).1
      ⟨false, none, "No se encontró ningún registro en la colección"⟩ rfl rfl⟩

end MongoService
